import Mathlib

/-!
Verification development for the scitran-data ingestion/reconstruction pipeline.

This file gives a shallow embedding, in Lean 4, of the parts of the
`nimsdata`/`medimg` Python code base that decide the spec claims under
examination: the raw-acquisition ("pfile") header version sniff, the GE
DICOM slice-count correction, the trimming of dangling incomplete volumes
before stacking, the vendor dispatch performed by `NIMSDicom.__init__`,
the error containment of reconstruction, the multiband ("mux") sequence
parameter overrides, the trigger-time slice-order inference, the localizer
short-circuit, and the bounded job pool of `recon_muxepi`.

Python values that can be `None` are modelled with `Option`; Python `x or d`
on integers (falsy on `None` and `0`) is modelled by `pyOrNat`; Python
floats that the code compares and truncates are modelled by `Rat`;
functions that can raise are modelled with `Except String`.
-/

namespace Scitran

/-- Python truthiness of an optional integer: `None` and `0` are falsy. -/
def pyTruthyNat : Option Nat → Bool
  | none => false
  | some 0 => false
  | some (_ + 1) => true

/-- Python `x or d` for an optional integer `x`: yields `d` when `x` is
`None` or `0`, otherwise the value of `x`. -/
def pyOrNat : Option Nat → Nat → Nat
  | none, d => d
  | some 0, d => d
  | some (n + 1), _ => n + 1

/-- Python 2 `int()` applied to a float: truncation toward zero. -/
def pyInt (q : ℚ) : ℤ :=
  if 0 ≤ q then Int.floor q else Int.ceil q

/-! ## Raw-header version sniff (`nimspfile.get_version`)

`get_version` reads the first 4 bytes of the file and a 10-byte vendor
signature ("logo") at offset 34, already split at the first NUL.  We embed
it as a pure function of those two inputs.  Byte strings are lists of byte
values. -/

/-- The 4-byte magic of a version-24 pfile, `'\x00\x00\xc0A'`. -/
def magicV24 : List Nat := [0x00, 0x00, 0xc0, 0x41]

/-- The 4-byte magic of a version-23 pfile, `'V\x0e\xa0A'`. -/
def magicV23 : List Nat := [0x56, 0x0e, 0xa0, 0x41]

/-- The 4-byte magic of a version-22 pfile, `'J\x0c\xa0A'`. -/
def magicV22 : List Nat := [0x4a, 0x0c, 0xa0, 0x41]

/-- The 4-byte magic of a version-12 pfile, `'\x00\x000A'`. -/
def magicV12 : List Nat := [0x00, 0x00, 0x30, 0x41]

/-- Embedding of `nimspfile.get_version` (src/medimg/nimspfile.py lines
99-116) as a function of the leading 4 bytes and the NUL-split logo string
at offset 34.  A raised `NIMSPFileError` is modelled as `Except.error`. -/
def get_version (version_bytes : List Nat) (logo : String) : Except String Nat :=
  let version :=
    if version_bytes = magicV24 then Except.ok 24
    else if version_bytes = magicV23 then Except.ok 23
    else if version_bytes = magicV22 then Except.ok 22
    else if version_bytes = magicV12 then Except.ok 12
    else Except.error "is not a valid PFile or of an unsupported version"
  match version with
  | Except.error e => Except.error e
  | Except.ok v =>
    if logo ≠ "GE_MED_NMR" ∧ logo ≠ "INVALIDNMR" then
      Except.error "is not a valid PFile"
    else
      Except.ok v

/-! ## GE DICOM single-record slice-count correction (`dcm.mr.ge.parse_one`)

Lines 119-127 of src/medimg/dcm/mr/ge.py, operating on the three header
counts `num_slices` (`LocationsInAcquisition`), `total_num_slices`
(`ImagesInAcquisition`) and `num_timepoints` (`NumberOfTemporalPositions`),
each an `int` or `None`. -/

/-- Embedding of the slice-count correction in `ge.parse_one`: returns the
updated pair `(num_slices, total_num_slices)`. -/
def ge_parse_one_slices (num_slices total_num_slices num_timepoints : Option Nat) :
    Option Nat × Option Nat :=
  -- if (self.total_num_slices or 1) == (self.num_slices or 0):
  --     self.total_num_slices = (self.num_slices or 1) * (self.num_timepoints or 1)
  let total_num_slices :=
    if pyOrNat total_num_slices 1 = pyOrNat num_slices 0 then
      some (pyOrNat num_slices 1 * pyOrNat num_timepoints 1)
    else total_num_slices
  -- if not self.num_slices and (self.num_timepoints or 1) == 1:
  --     self.num_slices = self.total_num_slices
  let num_slices :=
    if ¬ pyTruthyNat num_slices ∧ pyOrNat num_timepoints 1 = 1 then
      total_num_slices
    else num_slices
  (num_slices, total_num_slices)

/-! ## Dangling-volume check (`generic_mr.partial_vol_check`)

src/medimg/dcm/mr/generic_mr.py lines 407-426, restricted to the non-mosaic
branch with a known (truthy) `num_slices`, which is the guard
`'MOSAIC' not in self.image_type and self.num_slices`.  The element list is
kept abstract. -/

/-- Embedding of the body of `partial_vol_check` for a non-mosaic series
with known `num_slices`: raise when fewer elements than slices, otherwise
drop the trailing `len mod num_slices` elements. -/
def vol_check {α : Type} (num_slices : Nat) (dcm_list : List α) :
    Except String (List α) :=
  if dcm_list.length < num_slices then
    Except.error "cannot reconstruct. total dicoms < num slices"
  else
    let excess_dcms := dcm_list.length % num_slices
    if excess_dcms ≠ 0 then
      -- self._dcm_list = self._dcm_list[:-1 * partial_vol_dcms]
      Except.ok (dcm_list.take (dcm_list.length - excess_dcms))
    else
      Except.ok dcm_list

/-! ## Pulse-sequence (psd) classification

`dcm.mr.ge.infer_psd_type` keys entirely off the lower-cased psd name; the
pfile reader then overrides a plain `epi` classification to `muxepi` when
the header field `rec.user6` (the multiband factor, a float) truncates to a
positive integer (`NIMSPFile.infer_psd_type`, src/medimg/nimspfile.py lines
250-265). -/

/-- `a` is a prefix of `b`, on raw character lists. -/
def charListPre : List Char → List Char → Bool
  | [], _ => true
  | _ :: _, [] => false
  | a :: as, b :: bs => a = b && charListPre as bs

/-- `needle` occurs as a contiguous run inside the character list. -/
def charListSub (needle : List Char) : List Char → Bool
  | [] => needle.isEmpty
  | b :: bs => charListPre needle (b :: bs) || charListSub needle bs

/-- Python `needle in hay` for strings. -/
def pyIn (needle hay : String) : Bool :=
  charListSub needle.toList hay.toList

/-- Embedding of `dcm.mr.ge.infer_psd_type` (src/medimg/dcm/mr/ge.py lines
36-84): the priority-ordered keyword decision table over the psd name.
The empty string models a falsy `psd_name`. -/
def ge_infer_psd_type (psd_name : String) : String :=
  if psd_name = "" then "unknown"
  else if pyIn "service" psd_name then "service"
  else if psd_name = "sprt" then "spiral"
  else if psd_name = "sprl_hos" then "hoshim"
  else if psd_name = "basic" then "basic"
  else if pyIn "mux" psd_name || pyIn "mb_" psd_name then "muxepi"
  else if pyIn "epi" psd_name then "epi"
  else if psd_name = "probe-mega" ∨ psd_name = "gaba_ss_cni" ∨ psd_name = "special_siam2" then "mrs"
  else if psd_name = "asl" then "asl"
  else if psd_name = "bravo" ∨ psd_name = "3dgrass" then "spgr"
  else if pyIn "fgre" psd_name then "gre"
  else if psd_name = "ssfse" then "fse"
  else if psd_name = "cube" then "cube"
  else if psd_name.endsWith "b1map" then "fieldmap"
  else "unknown"

/-- Embedding of `NIMSPFile.infer_psd_type`: the GE name-based
classification followed by the misnamed-mux correction
`if self.psd_type == 'epi' and int(self._hdr.rec.user6) > 0`. -/
def pfile_infer_psd_type (psd_name : String) (rec_user6 : ℚ) : String :=
  let t := ge_infer_psd_type psd_name
  if t = "epi" ∧ 0 < pyInt rec_user6 then "muxepi" else t

/-- Embedding of the `NIMSPFile.recon_func` property (src/medimg/nimspfile.py
lines 660-674): the reconstruction strategy selected for a psd type, `none`
when no reconstruction is available. -/
def recon_func_strategy (psd_type : String) : Option String :=
  if psd_type = "spiral" then some "recon_spirec"
  else if psd_type = "muxepi" then some "recon_muxepi"
  else if psd_type = "mrs" then some "recon_mrs"
  else if psd_type = "hoshim" then some "recon_hoshim"
  else if psd_type = "basic" then some "recon_basic"
  else none

/-! ## Sequence-specific timepoint overrides in `NIMSPFile._full_parse`

src/medimg/nimspfile.py lines 445-450 set generic defaults
(`num_bands = 1`, `num_mux_cal_cycle = 0`, `num_timepoints = rec.npasses`,
`num_timepoints_available = num_timepoints`); lines 459-488 then override
them per psd type.  Only the fields the claims mention are embedded. -/

/-- The `rec` sub-header fields consumed by the timepoint overrides.
`user0`, `user6`, `user7` are floats; the rest are integers. -/
structure PFileRec where
  user0 : ℚ
  user6 : ℚ
  user7 : ℚ
  npasses : ℤ
  nechoes : ℤ
  ileaves : ℤ

/-- The sequence parameters computed by `_full_parse` that the multiband
claims concern. -/
structure SeqParams where
  num_bands : ℤ
  num_mux_cal_cycle : ℤ
  num_timepoints : ℤ
  num_timepoints_available : ℤ
  deriving DecidableEq, Repr

/-- Embedding of the `_full_parse` timepoint computation: generic defaults
followed by the psd-type-specific overrides of lines 461-488 (the spiral,
basic and muxepi branches; the mrs branch does not touch these fields). -/
def full_parse_seq_params (psd_type : String) (r : PFileRec) : SeqParams :=
  let base : SeqParams :=
    { num_bands := 1
      num_mux_cal_cycle := 0
      num_timepoints := r.npasses
      num_timepoints_available := r.npasses }
  if psd_type = "spiral" then
    { base with num_timepoints := pyInt r.user0 }
  else if psd_type = "basic" then
    -- (self._hdr.rec.npasses * self._hdr.rec.nechoes - 6) / 2, Python 2 floor division
    { base with num_timepoints := Int.fdiv (r.npasses * r.nechoes - 6) 2 }
  else if psd_type = "muxepi" then
    let num_bands := pyInt r.user6
    let num_mux_cal_cycle := pyInt r.user7
    { num_bands := num_bands
      num_mux_cal_cycle := num_mux_cal_cycle
      num_timepoints := r.npasses + num_bands * (r.ileaves - 1) * num_mux_cal_cycle
      num_timepoints_available := r.npasses - num_bands * num_mux_cal_cycle + num_mux_cal_cycle }
  else base

/-! ## NIFTI-style slice-order codes (`generic_mr`, lines 31-37) -/

def SLICE_ORDER_UNKNOWN : Nat := 0
def SLICE_ORDER_SEQ_INC : Nat := 1
def SLICE_ORDER_SEQ_DEC : Nat := 2
def SLICE_ORDER_ALT_INC : Nat := 3
def SLICE_ORDER_ALT_DEC : Nat := 4
def SLICE_ORDER_ALT_INC2 : Nat := 5
def SLICE_ORDER_ALT_DEC2 : Nat := 6

/-! ## Trigger-time slice-order inference (`dcm.mr.ge.parse_all`)

src/medimg/dcm/mr/ge.py lines 184-198.  `trigger_times` is the per-element
`TriggerTime` (ms, a float) of the first `num_slices` elements;
`trigger_times_from_first_slice = trigger_times[0] - trigger_times`.
Floats are modelled as rationals. -/

/-- Embedding of the slice-order branch of `ge.parse_all`, as a function of
`reverse_slice_order`, `num_slices` and the per-slice trigger times. -/
def ge_slice_order (reverse_slice_order : Bool) (num_slices : Nat)
    (tts : List ℚ) : Nat :=
  let trigger_times := tts.take num_slices
  let trigger_times := if reverse_slice_order then trigger_times.reverse else trigger_times
  let t0 := trigger_times.getD 0 0
  let t1 := trigger_times.getD 1 0
  let t2 := trigger_times.getD 2 0
  if 2 < num_slices then
    -- trigger_times_from_first_slice[1] < 0, i.e. t0 - t1 < 0
    if t0 - t1 < 0 then
      if t1 < t2 then SLICE_ORDER_SEQ_INC else SLICE_ORDER_ALT_INC
    else
      if t1 < t2 then SLICE_ORDER_ALT_DEC else SLICE_ORDER_SEQ_DEC
  else SLICE_ORDER_SEQ_INC

/-! ## Localizer detection short-circuit (`dcm.mr.ge.parse_all`)

src/medimg/dcm/mr/ge.py lines 158-166, guarded by
`if self.total_num_slices < MAX_LOC_DCMS`.  In Python 2 a `None`
`total_num_slices` compares below any integer.  The per-element
`ImageOrientationPatient` six-vectors are rationals; `np.allclose` uses the
numpy defaults `rtol = 1e-05`, `atol = 1e-08`. -/

/-- `MAX_LOC_DCMS = 150` (src/medimg/nimsdicom.py line 39). -/
def MAX_LOC_DCMS : ℤ := 150

/-- Python 2 comparison `x < n` for an optional integer `x`: `None` sorts
below every integer. -/
def py2LtInt : Option ℤ → ℤ → Bool
  | none, _ => true
  | some x, n => x < n

/-- `np.allclose` on two equal-length vectors with the default tolerances. -/
def np_allclose (a b : List ℚ) : Bool :=
  (a.zip b).all fun p => |p.1 - p.2| ≤ 1 / 100000000 + (1 / 100000) * |p.2|

/-- The orientation count of `ge.parse_all`: deduplicate the observed
`ImageOrientationPatient` vectors (the `list(set(...))`), keep the first as
reference and add every later one not `allclose` to it. -/
def ge_count_ornts (ornt_list : List (List ℚ)) : Nat :=
  let ornts := ornt_list.dedup
  match ornts with
  | [] => 0
  | o0 :: rest => 1 + (rest.filter fun o => ¬ np_allclose o0 o).length

/-- Embedding of the localizer section of `ge.parse_all`: the flag is
(re)computed only when `total_num_slices < MAX_LOC_DCMS`; otherwise the
dataset's prior `is_localizer` (initialised to `None` by
`MedImgReader.__init__`) is left untouched. -/
def ge_parse_all_localizer (total_num_slices : Option ℤ)
    (ornt_list : List (List ℚ)) (is_localizer : Option Bool) : Option Bool :=
  if py2LtInt total_num_slices MAX_LOC_DCMS then
    some (decide (1 < ge_count_ornts ornt_list))
  else is_localizer

/-! ## Vendor dispatch (`NIMSDicom.__init__`)

src/medimg/nimsdicom.py lines 41-53 and 260-272.  The dispatcher looks the
manufacturer and SOP class UID up in two tables, composes the module name
`'dcm.<sop>.<mfr>'` (a missing key rendering as the string `"None"`), and
tries to import it.  A successful import binds the module's `parse_one`,
`parse_all` and `convert` onto the instance; an `ImportError` or
`AttributeError` is caught and only logs `'no composer match. parsing
basic info only.'`, leaving the no-op methods in place.  The set of
importable strategy modules is a parameter (`available`), since it is a
property of the installed package tree. -/

def SUPPORTED_MFR : List (String × String) :=
  [("GE MEDICAL SYSTEMS", "ge"), ("SIEMENS", "siemens")]

def SUPPORTED_SOP : List (String × String) :=
  [("1.2.840.10008.5.1.4.1.1.4", "mr"),
   ("1.2.840.10008.5.1.4.1.1.7", "sc"),
   ("1.3.12.2.1107.5.9.1", "syngo_csa"),
   ("1.2.840.10008.5.1.4.1.1.88.22", "enhanced_sr"),
   ("1.2.840.10008.5.1.4.1.1.128", "pet")]

/-- Python `dict.get` on one of the tables above, with a possibly-`None`
key. -/
def tableGet (table : List (String × String)) : Option String → Option String
  | none => none
  | some k => (table.find? fun p => p.1 = k).map Prod.snd

/-- Python string interpolation of a possibly-`None` value. -/
def pyStr : Option String → String
  | none => "None"
  | some s => s

/-- The outcome of the strategy-selection part of `NIMSDicom.__init__`.
`error` models a raised `NIMSDicomError` (which in `__init__` only the
header-extraction failure produces); `bound m` means the three functions
`parse_one`, `parse_all`, `convert` of module `m` were bound onto the
instance; `fallback` means no composer matched, a warning was logged and
the generic no-op methods remain. -/
inductive DispatchOutcome
  | error (msg : String)
  | bound (composer : String)
  | fallback
  deriving DecidableEq, Repr

/-- The strategy modules present in the repository's `dcm` package tree. -/
def dcm_modules : List String :=
  ["dcm.mr.ge", "dcm.mr.generic_mr", "dcm.sc.ge", "dcm.sc.generic_sc"]

/-- Embedding of the dispatch in `NIMSDicom.__init__` lines 260-272. -/
def nimsdicom_dispatch (available : List String)
    (manufacturer sop_class_uid : Option String) : DispatchOutcome :=
  let mfr := tableGet SUPPORTED_MFR manufacturer
  let sop := tableGet SUPPORTED_SOP sop_class_uid
  let composer := "dcm" ++ "." ++ pyStr sop ++ "." ++ pyStr mfr
  if composer ∈ available then DispatchOutcome.bound composer
  else DispatchOutcome.fallback

/-! ## Reconstruction error containment

`NIMSPFile.do_recon` (src/medimg/nimspfile.py lines 676-708) and
`NIMSDicom.load_data` (src/medimg/nimsdicom.py lines 362-370) both wrap the
reconstruction strategy in `try/except`, record the exception in
`failure_reason` and set `data = None`.  Voxel volumes are modelled as
nested lists indexed `[x][y][z]`; a strategy is modelled by its outcome: a
raised exception or the produced `data` dictionary (label to volume). -/

/-- A voxel volume, indexed `[x][y][z]`. -/
def Vox : Type := List (List (List ℤ))

/-- `data[k][:,:,::-1,]`: reverse the slice (third) axis. -/
def revSliceOrder (v : Vox) : Vox :=
  v.map fun plane => plane.map List.reverse

/-- `data[k][::-1,:,:,]`: reverse the first axis. -/
def flipLR (v : Vox) : Vox :=
  List.reverse v

/-- The pfile dataset fields that `do_recon` and its error handler can see:
metadata produced by `_full_parse`, the voxel-data dictionary and the
recorded failure reason. -/
structure PFileDataset where
  exam_uid : String
  series_uid : String
  psd_name : String
  psd_type : String
  num_slices : ℤ
  num_timepoints : ℤ
  is_dwi : Bool
  reverse_slice_order : Bool
  flip_lr : Bool
  data : Option (List (String × Vox))
  failure_reason : Option String

/-- The per-key flip applied by `do_recon` after a successful
reconstruction. -/
def do_recon_flips (ds : PFileDataset) (v : Vox) : Vox :=
  let v := if ds.reverse_slice_order then revSliceOrder v else v
  if ds.flip_lr then flipLR v else v

/-- Embedding of `NIMSPFile.do_recon`: select the strategy from the psd
type; run it, catching any raised exception into `failure_reason` with
`data = None`; on success apply the slice-order/left-right flips to every
entry of the data dictionary.  `run_strategy` maps a strategy name and the
dataset to the strategy's outcome.  The embedding is a total function: no
exception escapes it. -/
def do_recon
    (run_strategy : String → PFileDataset → Except String (List (String × Vox)))
    (ds : PFileDataset) : PFileDataset :=
  match recon_func_strategy ds.psd_type with
  | none => ds
  | some f =>
    match run_strategy f ds with
    | Except.error e => { ds with data := none, failure_reason := some e }
    | Except.ok d =>
      { ds with data := some (d.map fun kv => (kv.1, do_recon_flips ds kv.2)) }

/-- The DICOM dataset fields that the tail of `NIMSDicom.load_data` can
see. -/
structure DicomDataset where
  exam_uid : String
  series_uid : String
  num_slices : Option ℤ
  metadata_status : String
  data : Option (List (String × Vox))
  failure_reason : Option String

/-- Embedding of the convert step of `NIMSDicom.load_data` (lines 362-370):
`parse_all` has completed, then the composed `convert` runs under
`try/except`; an exception is recorded and `data` is cleared. -/
def nimsdicom_load_data_convert
    (convert : DicomDataset → Except String (List (String × Vox)))
    (ds : DicomDataset) : DicomDataset :=
  let ds := { ds with metadata_status := "complete" }
  match convert ds with
  | Except.error e => { ds with data := none, failure_reason := some e }
  | Except.ok d => { ds with data := some d }

/-! ## The multiband job pool (`NIMSPFile.recon_muxepi`)

src/medimg/nimspfile.py lines 982-1013.  The loop

```
slice_num = 0
while slice_num < self.num_slices:
    num_running_jobs = sum([job.poll()==None for job in mux_recon_jobs])
    if num_running_jobs < self.num_jobs:
        ... spawn job for slice_num ...; slice_num += 1
    else:
        time.sleep(1.)
for job in mux_recon_jobs:
    job.wait()
img = load "sl_000.mat"
for slice_num in range(1, num_slices):
    new_img = load ("sl_%03d.mat" % slice_num)
    t = min(img.shape[-1], new_img.shape[-1])
    img[...,0:t] += new_img[...,0:t]
```

is modelled as a step relation on a pool state.  One step is one loop
iteration; the polls of consecutive iterations are consecutive instants, so
an external job's behaviour is fully described by a duration function
`dur`: the job for slice `i` submitted at instant `ts` is observed running
at every poll instant `t` with `t < ts + dur i` and completed afterwards -
an arbitrary job-duration distribution.  The loop is run on fuel, since
with `num_jobs = 0` the source loop never terminates. -/

/-- The state of the polling loop: the next slice to submit, the submitted
jobs as (slice index, submission instant) pairs in submission order, and
the current poll instant. -/
structure MuxPoolState where
  slice_num : Nat
  subs : List (Nat × Nat)
  time : Nat
  deriving DecidableEq, Repr

/-- `job.poll() == None`: the job for slice `sub.1`, submitted at instant
`sub.2`, is still running at instant `t`. -/
def jobRunning (dur : Nat → Nat) (t : Nat) (sub : Nat × Nat) : Bool :=
  t < sub.2 + dur sub.1

/-- `sum([job.poll()==None for job in mux_recon_jobs])`. -/
def numRunningJobs (dur : Nat → Nat) (t : Nat) (subs : List (Nat × Nat)) : Nat :=
  subs.countP fun sub => jobRunning dur t sub

/-- One iteration of the `while slice_num < self.num_slices` loop: submit
the next slice when fewer than `num_jobs` jobs are running, else sleep. -/
def muxPoolStep (num_jobs : Nat) (dur : Nat → Nat) (s : MuxPoolState) : MuxPoolState :=
  if numRunningJobs dur s.time s.subs < num_jobs then
    { slice_num := s.slice_num + 1
      subs := s.subs ++ [(s.slice_num, s.time)]
      time := s.time + 1 }
  else
    { s with time := s.time + 1 }

/-- Run the polling loop for at most `fuel` iterations. -/
def muxPoolRun (num_jobs : Nat) (dur : Nat → Nat) (num_slices : Nat) :
    Nat → MuxPoolState → MuxPoolState
  | 0, s => s
  | fuel + 1, s =>
    if s.slice_num < num_slices then
      muxPoolRun num_jobs dur num_slices fuel (muxPoolStep num_jobs dur s)
    else s

/-- `slice_num = 0`, no jobs submitted, instant 0. -/
def muxPoolInit : MuxPoolState := ⟨0, [], 0⟩

/-- The instant at which the job of a submission record completes. -/
def jobFinishTime (dur : Nat → Nat) (sub : Nat × Nat) : Nat :=
  sub.2 + dur sub.1

/-- The instant at which the `for job in mux_recon_jobs: job.wait()`
barrier falls through and result assembly begins: no earlier than the end
of the loop and than every submitted job's completion. -/
def waitAllTime (dur : Nat → Nat) (s : MuxPoolState) : Nat :=
  s.subs.foldl (fun t sub => max t (jobFinishTime dur sub)) s.time

/-- `img[...,0:t] += new_img[...,0:t]` with `t` the minimum trailing
length, on the trailing (timepoint) axis flattened to one list: add
pointwise where both are defined, keep the rest of `img`. -/
def addTrimTimepoints (img new_img : List ℤ) : List ℤ :=
  List.zipWith (· + ·) img new_img ++ img.drop new_img.length

/-- The result-assembly loop: start from the slice-0 output file and fold
in the output file of every further slice index in ascending order.
`outputs i` is the content of output file `"sl_%03d.mat" % i`, which the
job for slice `i` wrote. -/
def muxAssemble (outputs : Nat → List ℤ) (num_slices : Nat) : List ℤ :=
  ((List.range num_slices).drop 1).foldl
    (fun img i => addTrimTimepoints img (outputs i)) (outputs 0)

/-- The whole of `recon_muxepi` after job construction: run the pool; if
the submission loop finished within the fuel, wait for all jobs and
assemble the per-slice output files, else the loop is still running. -/
def recon_muxepi_model (num_jobs : Nat) (dur : Nat → Nat) (num_slices fuel : Nat)
    (outputs : Nat → List ℤ) : Option (List ℤ) :=
  let s := muxPoolRun num_jobs dur num_slices fuel muxPoolInit
  if s.slice_num = num_slices then some (muxAssemble outputs num_slices)
  else none

/-! # Theorems -/

/-- C2: for every input, `get_version` returns 24 / 23 / 22 / 12 for the
four supported magic byte sequences; any other 4-byte prefix raises the
unsupported-version `NIMSPFileError`; and even with a recognized magic, a
vendor signature at offset 34 that is neither `'GE_MED_NMR'` nor
`'INVALIDNMR'` also raises a `NIMSPFileError`. -/
theorem get_version_spec (version_bytes : List Nat) (logo : String) :
    ((logo = "GE_MED_NMR" ∨ logo = "INVALIDNMR") →
      (version_bytes = magicV24 → get_version version_bytes logo = Except.ok 24) ∧
      (version_bytes = magicV23 → get_version version_bytes logo = Except.ok 23) ∧
      (version_bytes = magicV22 → get_version version_bytes logo = Except.ok 22) ∧
      (version_bytes = magicV12 → get_version version_bytes logo = Except.ok 12)) ∧
    (version_bytes ≠ magicV24 → version_bytes ≠ magicV23 → version_bytes ≠ magicV22 →
      version_bytes ≠ magicV12 →
      get_version version_bytes logo =
        Except.error "is not a valid PFile or of an unsupported version") ∧
    (logo ≠ "GE_MED_NMR" → logo ≠ "INVALIDNMR" →
      ∃ msg, get_version version_bytes logo = Except.error msg) := by
  refine ⟨?_, ?_, ?_⟩
  · intro hlogo
    have hl : ¬ (logo ≠ "GE_MED_NMR" ∧ logo ≠ "INVALIDNMR") := by tauto
    refine ⟨?_, ?_, ?_, ?_⟩ <;> rintro rfl <;>
      simp [get_version, hl, magicV24, magicV23, magicV22, magicV12]
  · intro h24 h23 h22 h12
    simp [get_version, h24, h23, h22, h12]
  · intro h1 h2
    by_cases hb24 : version_bytes = magicV24
    · exact ⟨"is not a valid PFile",
        by simp [get_version, hb24, h1, h2, magicV24, magicV23, magicV22, magicV12]⟩
    · by_cases hb23 : version_bytes = magicV23
      · exact ⟨"is not a valid PFile",
          by simp [get_version, hb24, hb23, h1, h2, magicV24, magicV23, magicV22, magicV12]⟩
      · by_cases hb22 : version_bytes = magicV22
        · exact ⟨"is not a valid PFile",
            by simp [get_version, hb24, hb23, hb22, h1, h2, magicV24, magicV23, magicV22, magicV12]⟩
        · by_cases hb12 : version_bytes = magicV12
          · exact ⟨"is not a valid PFile",
              by simp [get_version, hb24, hb23, hb22, hb12, h1, h2,
                magicV24, magicV23, magicV22, magicV12]⟩
          · exact ⟨"is not a valid PFile or of an unsupported version",
              by simp [get_version, hb24, hb23, hb22, hb12]⟩

/-- Witness for C2 at concrete inputs. -/
theorem get_version_spec_witness :
    get_version magicV24 "GE_MED_NMR" = Except.ok 24 ∧
    get_version [1, 2, 3, 4] "GE_MED_NMR" =
      Except.error "is not a valid PFile or of an unsupported version" ∧
    (∃ msg, get_version magicV22 "BAD_VENDOR" = Except.error msg) :=
  ⟨((get_version_spec magicV24 "GE_MED_NMR").1 (Or.inl rfl)).1 rfl,
   (get_version_spec [1, 2, 3, 4] "GE_MED_NMR").2.1
     (by decide) (by decide) (by decide) (by decide),
   (get_version_spec magicV22 "BAD_VENDOR").2.2 (by decide) (by decide)⟩

/-- C3, counterexample: with `total_num_slices = num_slices = 1` and
`num_timepoints = 0`, the code leaves `total_num_slices = 1` because
`(self.num_timepoints or 1)` turns the zero into a one, while the claim
demands `num_slices * num_timepoints = 1 * 0 = 0`. -/
theorem ge_parse_one_slices_cex :
    (ge_parse_one_slices (some 1) (some 1) (some 0)).2 ≠ some (1 * 0) := by
  decide

/-- C3 (amended): in single-record GE DICOM parsing, if the header-reported
total slice count equals the per-volume slice count then `total_num_slices`
is recomputed as `num_slices * num_timepoints`, provided `num_timepoints`
is a positive integer (an unset or zero `num_timepoints` is treated as 1);
and if `num_slices` is unset while `num_timepoints` is 1 (or unset),
`num_slices` is set equal to `total_num_slices`. -/
theorem ge_parse_one_slices_spec (n T : Nat) (hT : 1 ≤ T)
    (total tp : Option Nat) (htp : tp = some 1 ∨ tp = none) :
    (ge_parse_one_slices (some n) (some n) (some T)).2 = some (n * T) ∧
    (ge_parse_one_slices none total tp).1 = total ∧
    (ge_parse_one_slices none total tp).2 = total := by
  obtain ⟨m, rfl⟩ : ∃ m, T = m + 1 := ⟨T - 1, by omega⟩
  refine ⟨?_, ?_, ?_⟩
  · cases n with
    | zero => simp [ge_parse_one_slices, pyOrNat]
    | succ k => simp [ge_parse_one_slices, pyOrNat]
  · rcases htp with rfl | rfl <;>
      (cases total with
       | none => simp [ge_parse_one_slices, pyOrNat, pyTruthyNat]
       | some k => cases k <;> simp [ge_parse_one_slices, pyOrNat, pyTruthyNat])
  · rcases htp with rfl | rfl <;>
      (cases total with
       | none => simp [ge_parse_one_slices, pyOrNat, pyTruthyNat]
       | some k => cases k <;> simp [ge_parse_one_slices, pyOrNat, pyTruthyNat])

/-- Witness for C3 at concrete inputs. -/
theorem ge_parse_one_slices_spec_witness :
    (ge_parse_one_slices (some 10) (some 10) (some 3)).2 = some (10 * 3) ∧
    (ge_parse_one_slices none (some 24) (some 1)).1 = some 24 ∧
    (ge_parse_one_slices none (some 24) (some 1)).2 = some 24 :=
  ge_parse_one_slices_spec 10 3 (by decide) (some 24) (some 1) (Or.inl rfl)

/-- C4: for a non-mosaic series with known positive `num_slices` and
element count `N`: if `N < num_slices` the check raises the hard
reconstruction error; otherwise exactly `N mod num_slices` trailing
elements are removed before stacking (none when `N` is a multiple), leaving
the first `N - (N mod num_slices)` elements as a prefix in their original
order. -/
theorem vol_check_spec {α : Type} (num_slices : Nat) (dcm_list : List α)
    (hpos : 0 < num_slices) :
    (dcm_list.length < num_slices →
      vol_check num_slices dcm_list =
        Except.error "cannot reconstruct. total dicoms < num slices") ∧
    (num_slices ≤ dcm_list.length →
      vol_check num_slices dcm_list =
        Except.ok (dcm_list.take (dcm_list.length - dcm_list.length % num_slices)) ∧
      (dcm_list.take (dcm_list.length - dcm_list.length % num_slices)).length =
        dcm_list.length - dcm_list.length % num_slices ∧
      List.IsPrefix
        (dcm_list.take (dcm_list.length - dcm_list.length % num_slices)) dcm_list ∧
      (dcm_list.length % num_slices = 0 →
        vol_check num_slices dcm_list = Except.ok dcm_list)) := by
  constructor
  · intro hlt
    simp [vol_check, hlt]
  · intro hge
    have hnotlt : ¬ dcm_list.length < num_slices := by omega
    have hmodlt : dcm_list.length % num_slices < num_slices := Nat.mod_lt _ hpos
    have hmodle : dcm_list.length % num_slices ≤ dcm_list.length :=
      Nat.mod_le _ _
    refine ⟨?_, ?_, List.take_prefix _ _, ?_⟩
    · by_cases hmod : dcm_list.length % num_slices = 0
      · simp [vol_check, hnotlt, hmod, List.take_of_length_le]
      · simp [vol_check, hnotlt, hmod]
    · simp [List.length_take]
    · intro hmod
      simp [vol_check, hnotlt, hmod]

/-- Witness for C4 at concrete inputs: 29 elements and 10 slices trim 9
trailing elements; 5 elements and 10 slices fail hard. -/
theorem vol_check_spec_witness :
    vol_check 10 (List.range 29) =
      Except.ok ((List.range 29).take ((List.range 29).length - (List.range 29).length % 10)) ∧
    vol_check 10 (List.range 5) =
      Except.error "cannot reconstruct. total dicoms < num slices" :=
  ⟨((vol_check_spec 10 (List.range 29) (by decide)).2 (by decide)).1,
   (vol_check_spec 10 (List.range 5) (by decide)).1 (by decide)⟩

/-- C5, counterexample: a pair outside the supported set — manufacturer
`'PHILIPS'` with the MR Image SOP class — does NOT raise an error: the
failed composer import is caught, a warning is logged, and the dataset
proceeds with the generic no-op parse methods (`fallback`), contradicting
the claimed hard parse failure. -/
theorem nimsdicom_dispatch_cex :
    nimsdicom_dispatch dcm_modules (some "PHILIPS")
      (some "1.2.840.10008.5.1.4.1.1.4") = DispatchOutcome.fallback := by
  decide

/-- C5 (amended): for every (manufacturer, SOP-class) pair whose composed
strategy module is importable, the dispatcher binds exactly that one
module's `parse_one`/`parse_all`/`convert` onto the dataset; for any pair
whose composer is not importable (in particular any unsupported
manufacturer or SOP class) it logs a warning and keeps the generic no-op
methods — no error is raised by dispatch. -/
theorem nimsdicom_dispatch_spec (available : List String)
    (manufacturer sop_class_uid : Option String) :
    (∀ msg, nimsdicom_dispatch available manufacturer sop_class_uid ≠
      DispatchOutcome.error msg) ∧
    (("dcm" ++ "." ++ pyStr (tableGet SUPPORTED_SOP sop_class_uid) ++ "." ++
        pyStr (tableGet SUPPORTED_MFR manufacturer)) ∈ available →
      nimsdicom_dispatch available manufacturer sop_class_uid =
        DispatchOutcome.bound
          ("dcm" ++ "." ++ pyStr (tableGet SUPPORTED_SOP sop_class_uid) ++ "." ++
            pyStr (tableGet SUPPORTED_MFR manufacturer))) ∧
    (("dcm" ++ "." ++ pyStr (tableGet SUPPORTED_SOP sop_class_uid) ++ "." ++
        pyStr (tableGet SUPPORTED_MFR manufacturer)) ∉ available →
      nimsdicom_dispatch available manufacturer sop_class_uid =
        DispatchOutcome.fallback) := by
  have heq : nimsdicom_dispatch available manufacturer sop_class_uid =
      if ("dcm" ++ "." ++ pyStr (tableGet SUPPORTED_SOP sop_class_uid) ++ "." ++
            pyStr (tableGet SUPPORTED_MFR manufacturer)) ∈ available then
        DispatchOutcome.bound
          ("dcm" ++ "." ++ pyStr (tableGet SUPPORTED_SOP sop_class_uid) ++ "." ++
            pyStr (tableGet SUPPORTED_MFR manufacturer))
      else DispatchOutcome.fallback := rfl
  refine ⟨?_, ?_, ?_⟩
  · intro msg
    rw [heq]
    split <;> simp
  · intro hmem
    rw [heq, if_pos hmem]
  · intro hmem
    rw [heq, if_neg hmem]

/-- Witness for C5 (amended) at concrete inputs: the GE MR pair binds the
`dcm.mr.ge` module. -/
theorem nimsdicom_dispatch_spec_witness :
    nimsdicom_dispatch dcm_modules (some "GE MEDICAL SYSTEMS")
      (some "1.2.840.10008.5.1.4.1.1.4") = DispatchOutcome.bound "dcm.mr.ge" := by
  have h := (nimsdicom_dispatch_spec dcm_modules (some "GE MEDICAL SYSTEMS")
    (some "1.2.840.10008.5.1.4.1.1.4")).2.1 (by decide)
  exact h.trans (by decide)

/-- C6: an exception raised inside a reconstruction strategy during data
loading does not propagate (both `NIMSPFile.do_recon` and the convert step
of `NIMSDicom.load_data` are total functions of the strategy outcome): it
is recorded in `failure_reason`, the voxel data is left unset
(`data = none`), and the previously parsed metadata fields are retained
unchanged. -/
theorem recon_error_containment
    (run_strategy : String → PFileDataset → Except String (List (String × Vox)))
    (ds : PFileDataset) (f e : String)
    (hf : recon_func_strategy ds.psd_type = some f)
    (he : run_strategy f ds = Except.error e)
    (convert : DicomDataset → Except String (List (String × Vox)))
    (dds : DicomDataset) (e2 : String)
    (hc : convert { dds with metadata_status := "complete" } = Except.error e2) :
    ((do_recon run_strategy ds).data = none ∧
     (do_recon run_strategy ds).failure_reason = some e ∧
     (do_recon run_strategy ds).exam_uid = ds.exam_uid ∧
     (do_recon run_strategy ds).series_uid = ds.series_uid ∧
     (do_recon run_strategy ds).psd_name = ds.psd_name ∧
     (do_recon run_strategy ds).psd_type = ds.psd_type ∧
     (do_recon run_strategy ds).num_slices = ds.num_slices ∧
     (do_recon run_strategy ds).num_timepoints = ds.num_timepoints ∧
     (do_recon run_strategy ds).is_dwi = ds.is_dwi) ∧
    ((nimsdicom_load_data_convert convert dds).data = none ∧
     (nimsdicom_load_data_convert convert dds).failure_reason = some e2 ∧
     (nimsdicom_load_data_convert convert dds).exam_uid = dds.exam_uid ∧
     (nimsdicom_load_data_convert convert dds).series_uid = dds.series_uid ∧
     (nimsdicom_load_data_convert convert dds).num_slices = dds.num_slices) := by
  constructor
  · simp [do_recon, hf, he]
  · simp [nimsdicom_load_data_convert, hc]

/-- Witness for C6 at a concrete dataset and an always-failing strategy. -/
theorem recon_error_containment_witness :
    (do_recon (fun _ _ => Except.error "octave crashed")
        ⟨"ex1", "se1", "muxarcepi", "muxepi", 3, 5, false, false, false, none, none⟩).data
      = none ∧
    (do_recon (fun _ _ => Except.error "octave crashed")
        ⟨"ex1", "se1", "muxarcepi", "muxepi", 3, 5, false, false, false, none, none⟩).failure_reason
      = some "octave crashed" ∧
    (nimsdicom_load_data_convert (fun _ => Except.error "cannot reconstruct")
        ⟨"ex2", "se2", some 10, "pending", none, none⟩).data = none := by
  have h := recon_error_containment (fun _ _ => Except.error "octave crashed")
    ⟨"ex1", "se1", "muxarcepi", "muxepi", 3, 5, false, false, false, none, none⟩
    "recon_muxepi" "octave crashed" rfl rfl
    (fun _ => Except.error "cannot reconstruct")
    ⟨"ex2", "se2", some 10, "pending", none, none⟩ "cannot reconstruct" rfl
  exact ⟨h.1.1, h.1.2.1, h.2.1⟩

/-- C7: for every raw-acquisition file whose sequence name classifies it as
multiband, the full parse sets `num_bands` from `rec.user6` and recomputes
`num_timepoints = npasses + num_bands * (ileaves - 1) * num_mux_cal_cycle`
with `num_timepoints_available = npasses - num_bands * num_mux_cal_cycle +
num_mux_cal_cycle`, where `num_mux_cal_cycle = int(rec.user7)`. -/
theorem full_parse_muxepi_spec (psd_name : String) (r : PFileRec)
    (h : ge_infer_psd_type psd_name = "muxepi") :
    pfile_infer_psd_type psd_name r.user6 = "muxepi" ∧
    recon_func_strategy (pfile_infer_psd_type psd_name r.user6) = some "recon_muxepi" ∧
    (full_parse_seq_params (pfile_infer_psd_type psd_name r.user6) r).num_bands =
      pyInt r.user6 ∧
    (full_parse_seq_params (pfile_infer_psd_type psd_name r.user6) r).num_timepoints =
      r.npasses + pyInt r.user6 * (r.ileaves - 1) * pyInt r.user7 ∧
    (full_parse_seq_params (pfile_infer_psd_type psd_name r.user6) r).num_timepoints_available =
      r.npasses - pyInt r.user6 * pyInt r.user7 + pyInt r.user7 := by
  have hmux : pfile_infer_psd_type psd_name r.user6 = "muxepi" := by
    unfold pfile_infer_psd_type
    rw [h]
    simp
  refine ⟨hmux, ?_, ?_, ?_, ?_⟩ <;> rw [hmux] <;>
    simp [recon_func_strategy, full_parse_seq_params]

/-- Witness for C7: a version-24 file whose psd name contains `'mux'` and
whose `rec.user6` is 2 (two bands) is classified multiband, routed to the
multiband strategy, and gets the calibration-repeat timepoint count; with
`npasses = 100`, `ileaves = 2`, `user7 = 2` the formula yields
`100 + 2 * (2 - 1) * 2 = 104` and `100 - 2 * 2 + 2 = 98`. -/
theorem full_parse_muxepi_spec_witness :
    get_version magicV24 "GE_MED_NMR" = Except.ok 24 ∧
    pfile_infer_psd_type "muxarcepi" 2 = "muxepi" ∧
    recon_func_strategy (pfile_infer_psd_type "muxarcepi" 2) = some "recon_muxepi" ∧
    (full_parse_seq_params (pfile_infer_psd_type "muxarcepi" 2)
        ⟨0, 2, 2, 100, 1, 2⟩).num_bands = pyInt 2 ∧
    (full_parse_seq_params (pfile_infer_psd_type "muxarcepi" 2)
        ⟨0, 2, 2, 100, 1, 2⟩).num_timepoints =
      100 + pyInt 2 * (2 - 1) * pyInt 2 ∧
    (full_parse_seq_params (pfile_infer_psd_type "muxarcepi" 2)
        ⟨0, 2, 2, 100, 1, 2⟩).num_timepoints_available =
      100 - pyInt 2 * pyInt 2 + pyInt 2 := by
  have h := full_parse_muxepi_spec "muxarcepi" ⟨0, 2, 2, 100, 1, 2⟩ (by decide)
  exact ⟨rfl, h.1, h.2.1, h.2.2.1, h.2.2.2.1, h.2.2.2.2⟩

/-- C8, counterexample: with `reverse_slice_order = False` and three
slices, trigger times `[0, 10, 5]` ms yield the alternating-increasing
code, not the claimed sequential-increasing code. -/
theorem ge_slice_order_cex :
    ge_slice_order false 3 [0, 10, 5] ≠ SLICE_ORDER_SEQ_INC := by
  norm_num [ge_slice_order, SLICE_ORDER_SEQ_INC, SLICE_ORDER_ALT_INC]

/-- C8 (amended): with `reverse_slice_order = False` and more than two
slices, trigger times `[0, 10, 5]` ms yield the alternating-increasing
code (`SLICE_ORDER_ALT_INC`) and trigger times `[0, 5, 10]` ms yield the
sequential-increasing code (`SLICE_ORDER_SEQ_INC`) — the two expected
codes of the claim are swapped. -/
theorem ge_slice_order_spec :
    ge_slice_order false 3 [0, 10, 5] = SLICE_ORDER_ALT_INC ∧
    ge_slice_order false 3 [0, 5, 10] = SLICE_ORDER_SEQ_INC := by
  constructor
  · norm_num [ge_slice_order, SLICE_ORDER_ALT_INC]
  · norm_num [ge_slice_order, SLICE_ORDER_SEQ_INC]

/-- C9: a GE DICOM series whose `total_num_slices` is at least
`MAX_LOC_DCMS = 150` skips orientation counting entirely: `is_localizer`
is left at its prior value — which `MedImgReader.__init__` initialises to
`None` — so such a series is never classified as a localizer, whatever
orientations its elements span. -/
theorem ge_localizer_skip (n : ℤ) (hn : 150 ≤ n)
    (ornt_list : List (List ℚ)) (prior : Option Bool) :
    ge_parse_all_localizer (some n) ornt_list prior = prior ∧
    ge_parse_all_localizer (some n) ornt_list none ≠ some true := by
  have hlt : py2LtInt (some n) MAX_LOC_DCMS = false := by
    simp [py2LtInt, MAX_LOC_DCMS]
    omega
  constructor
  · simp [ge_parse_all_localizer, hlt]
  · simp [ge_parse_all_localizer, hlt]

/-- Witness for C9: 150 elements spanning three orientations are still not
flagged as a localizer. -/
theorem ge_localizer_skip_witness :
    ge_parse_all_localizer (some 150)
      [[1, 0, 0, 0, 1, 0], [0, 1, 0, 0, 0, 1], [1, 0, 0, 0, 0, 1]] none = none :=
  (ge_localizer_skip 150 (by decide)
    [[1, 0, 0, 0, 1, 0], [0, 1, 0, 0, 0, 1], [1, 0, 0, 0, 0, 1]] none).1

/-- C10, counterexample: the pfile reader's override tests
`int(rec.user6) > 0`, not `rec.user6 > 0`: for a plain `'epi'` sequence
with `rec.user6 = 1/2` (greater than 0, but truncating to 0) the
classification stays `'epi'` and is not rerouted to the multiband
strategy. -/
theorem pfile_infer_psd_type_cex :
    (0 : ℚ) < 1 / 2 ∧ pfile_infer_psd_type "epi" (1 / 2) = "epi" := by
  constructor
  · norm_num
  · norm_num [pfile_infer_psd_type, pyInt]
    decide

/-- C10 (amended): for every raw-acquisition file whose sequence name
classifies it as plain `'epi'` but whose header field `rec.user6` truncates
to a positive integer (`int(rec.user6) > 0`), the psd-type inference
overrides the classification to `'muxepi'`, and `recon_func` then routes
the file to `recon_muxepi` rather than leaving it on the generic EPI path
(which has no reconstruction function at all). -/
theorem pfile_infer_psd_type_spec (psd_name : String) (user6 : ℚ)
    (hepi : ge_infer_psd_type psd_name = "epi") (hu6 : 0 < pyInt user6) :
    pfile_infer_psd_type psd_name user6 = "muxepi" ∧
    recon_func_strategy (pfile_infer_psd_type psd_name user6) = some "recon_muxepi" ∧
    recon_func_strategy (ge_infer_psd_type psd_name) = none := by
  have hmux : pfile_infer_psd_type psd_name user6 = "muxepi" := by
    unfold pfile_infer_psd_type
    rw [hepi]
    simp [hu6]
  refine ⟨hmux, ?_, ?_⟩
  · rw [hmux]
    decide
  · rw [hepi]
    decide

/-- Witness for C10 (amended) at `psd_name = "epi2"`, `rec.user6 = 3`. -/
theorem pfile_infer_psd_type_spec_witness :
    pfile_infer_psd_type "epi2" 3 = "muxepi" ∧
    recon_func_strategy (pfile_infer_psd_type "epi2" 3) = some "recon_muxepi" :=
  ⟨(pfile_infer_psd_type_spec "epi2" 3 (by decide) (by decide)).1,
   (pfile_infer_psd_type_spec "epi2" 3 (by decide) (by decide)).2.1⟩

/-! ### Lemmas about the multiband job pool -/

/-- As the poll instant advances, a submitted job can only stop running:
the running count is antitone in time for a fixed job list. -/
theorem numRunningJobs_succ_le (dur : Nat → Nat) (t : Nat) (subs : List (Nat × Nat)) :
    numRunningJobs dur (t + 1) subs ≤ numRunningJobs dur t subs := by
  apply List.countP_mono_left
  intro sub _ h
  simp only [jobRunning, decide_eq_true_eq] at h ⊢
  omega

/-- One loop iteration preserves the concurrency bound: a job is submitted
only when strictly fewer than `num_jobs` jobs are running. -/
theorem muxPoolStep_bound (num_jobs : Nat) (dur : Nat → Nat) (s : MuxPoolState)
    (h : numRunningJobs dur s.time s.subs ≤ num_jobs) :
    numRunningJobs dur (muxPoolStep num_jobs dur s).time
      (muxPoolStep num_jobs dur s).subs ≤ num_jobs := by
  unfold muxPoolStep
  by_cases hcond : numRunningJobs dur s.time s.subs < num_jobs
  · rw [if_pos hcond]
    simp only
    rw [numRunningJobs, List.countP_append]
    have h1 : List.countP (fun sub => jobRunning dur (s.time + 1) sub) s.subs ≤
        List.countP (fun sub => jobRunning dur s.time sub) s.subs :=
      numRunningJobs_succ_le dur s.time s.subs
    have h2 : List.countP (fun sub => jobRunning dur (s.time + 1) sub)
        [(s.slice_num, s.time)] ≤ 1 := by
      simp [List.countP_cons]
      split <;> omega
    rw [numRunningJobs] at hcond
    omega
  · rw [if_neg hcond]
    simp only
    exact le_trans (numRunningJobs_succ_le dur s.time s.subs) h

/-- One loop iteration preserves the submission record: the submitted slice
indices are exactly `0, 1, ..., slice_num - 1` in ascending order. -/
theorem muxPoolStep_subs (num_jobs : Nat) (dur : Nat → Nat) (s : MuxPoolState)
    (h : s.subs.map Prod.fst = List.range s.slice_num) :
    (muxPoolStep num_jobs dur s).subs.map Prod.fst =
      List.range (muxPoolStep num_jobs dur s).slice_num := by
  unfold muxPoolStep
  split
  · simp only [List.map_append, List.map_cons, List.map_nil, h, List.range_succ]
  · exact h

/-- Running the loop preserves any property preserved by one iteration. -/
theorem muxPoolRun_preserves (num_jobs : Nat) (dur : Nat → Nat) (num_slices : Nat)
    (P : MuxPoolState → Prop)
    (hstep : ∀ s, P s → P (muxPoolStep num_jobs dur s)) :
    ∀ (fuel : Nat) (s : MuxPoolState), P s →
      P (muxPoolRun num_jobs dur num_slices fuel s) := by
  intro fuel
  induction fuel with
  | zero => intro s hs; exact hs
  | succ k ih =>
    intro s hs
    unfold muxPoolRun
    split
    · exact ih _ (hstep s hs)
    · exact hs

/-- The seed of a running fold by `max` bounds nothing above the result. -/
theorem foldl_max_init_le {β : Type} (g : β → Nat) :
    ∀ (l : List β) (a : Nat), a ≤ l.foldl (fun t x => max t (g x)) a := by
  intro l
  induction l with
  | nil => intro a; exact le_refl a
  | cons b bs ih =>
    intro a
    exact le_trans (Nat.le_max_left a (g b)) (ih (max a (g b)))

/-- Every element's contribution is below a running fold by `max`. -/
theorem mem_le_foldl_max {β : Type} (g : β → Nat) :
    ∀ (l : List β) (a : Nat) (b : β), b ∈ l →
      g b ≤ l.foldl (fun t x => max t (g x)) a := by
  intro l
  induction l with
  | nil => intro a b hb; cases hb
  | cons c cs ih =>
    intro a b hb
    rcases List.mem_cons.mp hb with rfl | hb
    · exact le_trans (Nat.le_max_right a (g b)) (foldl_max_init_le g cs (max a (g b)))
    · exact ih (max a (g c)) b hb

/-- C1: for every job limit, slice count and job-duration distribution,
(1) at every poll instant of the `recon_muxepi` loop the number of external
jobs simultaneously in the running state never exceeds `num_jobs`;
(2) jobs are submitted in ascending slice-index order;
(3) result assembly begins only after every submitted job has completed
(the wait-all barrier dominates every job's completion instant); and
(4) the assembled result re-associates each job's output file by its slice
index, so it does not depend on the completion order: two runs that both
finish submission yield the same result for any two duration
distributions. -/
theorem recon_muxepi_pool_props (num_jobs num_slices : Nat) (dur : Nat → Nat) :
    (∀ fuel, numRunningJobs dur
        (muxPoolRun num_jobs dur num_slices fuel muxPoolInit).time
        (muxPoolRun num_jobs dur num_slices fuel muxPoolInit).subs ≤ num_jobs) ∧
    (∀ fuel, (muxPoolRun num_jobs dur num_slices fuel muxPoolInit).subs.map Prod.fst =
        List.range (muxPoolRun num_jobs dur num_slices fuel muxPoolInit).slice_num) ∧
    (∀ fuel sub, sub ∈ (muxPoolRun num_jobs dur num_slices fuel muxPoolInit).subs →
        jobFinishTime dur sub ≤
          waitAllTime dur (muxPoolRun num_jobs dur num_slices fuel muxPoolInit)) ∧
    (∀ fuel1 fuel2 (dur2 : Nat → Nat) (outputs : Nat → List ℤ),
        (muxPoolRun num_jobs dur num_slices fuel1 muxPoolInit).slice_num = num_slices →
        (muxPoolRun num_jobs dur2 num_slices fuel2 muxPoolInit).slice_num = num_slices →
        recon_muxepi_model num_jobs dur num_slices fuel1 outputs =
          recon_muxepi_model num_jobs dur2 num_slices fuel2 outputs) := by
  refine ⟨?_, ?_, ?_, ?_⟩
  · intro fuel
    exact muxPoolRun_preserves num_jobs dur num_slices
      (fun s => numRunningJobs dur s.time s.subs ≤ num_jobs)
      (fun s hs => muxPoolStep_bound num_jobs dur s hs) fuel muxPoolInit
      (by simp [muxPoolInit, numRunningJobs])
  · intro fuel
    exact muxPoolRun_preserves num_jobs dur num_slices
      (fun s => s.subs.map Prod.fst = List.range s.slice_num)
      (fun s hs => muxPoolStep_subs num_jobs dur s hs) fuel muxPoolInit
      (by simp [muxPoolInit])
  · intro fuel sub hsub
    exact mem_le_foldl_max (jobFinishTime dur) _ _ sub hsub
  · intro fuel1 fuel2 dur2 outputs h1 h2
    unfold recon_muxepi_model
    simp only [h1, h2, if_pos]

/-- Witness for C1 at `num_jobs = 2`, `num_slices = 4`, a uniform 3-instant
job duration and fuel 20: the loop finishes, the bound holds at the final
state, the submitted indices are `[0, 1, 2, 3]`, the first job's completion
is below the barrier, and the assembled result is the same as with
instantly-completing jobs. -/
theorem recon_muxepi_pool_props_witness :
    numRunningJobs (fun _ => 3)
      (muxPoolRun 2 (fun _ => 3) 4 20 muxPoolInit).time
      (muxPoolRun 2 (fun _ => 3) 4 20 muxPoolInit).subs ≤ 2 ∧
    (muxPoolRun 2 (fun _ => 3) 4 20 muxPoolInit).subs.map Prod.fst =
      List.range (muxPoolRun 2 (fun _ => 3) 4 20 muxPoolInit).slice_num ∧
    jobFinishTime (fun _ => 3) (0, 0) ≤
      waitAllTime (fun _ => 3) (muxPoolRun 2 (fun _ => 3) 4 20 muxPoolInit) ∧
    recon_muxepi_model 2 (fun _ => 3) 4 20 (fun i => [Int.ofNat i]) =
      recon_muxepi_model 2 (fun _ => 0) 4 20 (fun i => [Int.ofNat i]) := by
  have h := recon_muxepi_pool_props 2 4 (fun _ => 3)
  exact ⟨h.1 20, h.2.1 20, h.2.2.1 20 (0, 0) (by decide),
    h.2.2.2 20 20 (fun _ => 0) (fun i => [Int.ofNat i]) (by decide) (by decide)⟩

end Scitran
